import Mathlib

/-!
# Verification of the Project NALAR quiz session engine

A shallow embedding of the session state machine of the NALAR quiz
application.  The logic is translated from the React sources:

* `QuestionArena.tsx` (the session controller: option selection,
  countdown timer, auto-advance, completion) — the component's
  `useState` fields become the fields of `ArenaState` and its event
  handlers / effect bodies become state-transition functions;
* `App.tsx` (outer lifecycle: `handleStartQuiz`, `handleQuit`);
* `localStorage.ts` (`calculateStreak`, the persisted `UserProgress`).

Machine numbers in the source are ordinary JS numbers used only at
small integer values, so they are modelled with `Nat`/`Int`; the
accuracy percentage `correctAnswers / questions.length * 100` is
modelled with `ℚ`.  Calendar dates (ISO `YYYY-MM-DD` strings at
day granularity) are modelled as integer day numbers, with
millisecond arithmetic kept explicit where the source performs it.

Invocations of the `onComplete` callback are recorded in a ghost
field `completions : List (Nat × ℚ)` holding the history of
`(score, accuracy)` payloads passed across the completion boundary.
-/

namespace Nalar

/-- Source `types.ts`: one answer option of a multiple-choice question
(`Option` in the source; renamed because `Option` is taken in Lean). -/
structure AnswerOption where
  id : String
  text : String
deriving DecidableEq, Repr

/-- Source `types.ts`: `QuestionData`. -/
structure QuestionData where
  id : Nat
  type : String
  difficulty : String
  question : String
  options : List AnswerOption
  correctId : String
  explanation : String
deriving DecidableEq, Repr

/-- Source `types.ts`: `GameState = 'IDLE' | 'PLAYING' | 'FINISHED'`. -/
inductive GameState where
  | IDLE
  | PLAYING
  | FINISHED
deriving DecidableEq, Repr

/-- The `useState` fields of the `QuestionArena` component, plus the
ghost field `completions` recording every `onComplete(score, accuracy)`
invocation. -/
structure ArenaState where
  currentQuestionIndex : Nat
  score : Nat
  streak : Nat
  correctAnswers : Nat
  showXPAnimation : Bool
  isNewHighScore : Bool
  internalIsComplete : Bool
  selectedOption : Option String
  timeRemaining : Nat
  isAnswered : Bool
  showTimeoutToast : Bool
  triggerShake : Bool
  shouldAutoAdvance : Bool
  completions : List (Nat × ℚ)
deriving DecidableEq, Repr

/-- The initial values of the `useState` hooks of `QuestionArena`
(index 0, all counters 0, timer 30, nothing selected, no callback
invocations yet). -/
def initArenaState : ArenaState where
  currentQuestionIndex := 0
  score := 0
  streak := 0
  correctAnswers := 0
  showXPAnimation := false
  isNewHighScore := false
  internalIsComplete := false
  selectedOption := none
  timeRemaining := 30
  isAnswered := false
  showTimeoutToast := false
  triggerShake := false
  shouldAutoAdvance := false
  completions := []

/-- Source `QuestionArena.tsx`, `handleOptionClick` (lines 285–319): guarded by
`isAnswered`; sets the selection, locks the question and applies the
scoring rule (`+20` score / `+1` correctAnswers / `+1` streak when the
option matches `questionData.correctId`, otherwise streak reset and a
shake).  `questionData` is `questions[currentQuestionIndex]`; the
out-of-range case (a fault in the source, reading `.correctId` of
`undefined`) is modelled as the identity and is unreachable while a
question is on screen. -/
def handleOptionClick (questions : List QuestionData) (optionId : String)
    (s : ArenaState) : ArenaState :=
  if s.isAnswered then s
  else
    match questions[s.currentQuestionIndex]? with
    | none => s
    | some questionData =>
      if optionId = questionData.correctId then
        { s with
          selectedOption := some optionId
          isAnswered := true
          score := s.score + 20
          correctAnswers := s.correctAnswers + 1
          streak := s.streak + 1
          showXPAnimation := true }
      else
        { s with
          selectedOption := some optionId
          isAnswered := true
          streak := 0
          triggerShake := true }

/-- The accuracy computed at completion:
`(correctAnswers / questions.length) * 100`. -/
def accuracyOf (correctAnswers n : Nat) : ℚ :=
  (correctAnswers : ℚ) / (n : ℚ) * 100

/-- Source `QuestionArena.tsx`, `handleNext` (lines 322–367): no-op while
unanswered; on the last question (`currentQuestionIndex ===
questions.length - 1`, an integer comparison in JS, hence the cast to
`ℤ`) computes the accuracy, updates the high-score flag, sets
`internalIsComplete` and invokes `onComplete(finalScore, accuracy)`;
otherwise advances to the next question and resets the per-question
fields.  In the source `finalCorrectAnswers`/`finalScore` (lines
332–337) are conditionals whose two branches are identical, so they
are `correctAnswers` and `score`. -/
def handleNext (questions : List QuestionData) (highScore : Nat)
    (s : ArenaState) : ArenaState :=
  if !s.isAnswered then s
  else if (s.currentQuestionIndex : ℤ) = (questions.length : ℤ) - 1 then
    { s with
      isNewHighScore := if s.score > highScore then true else s.isNewHighScore
      internalIsComplete := true
      completions :=
        s.completions ++ [(s.score, accuracyOf s.correctAnswers questions.length)] }
  else
    { s with
      currentQuestionIndex := s.currentQuestionIndex + 1
      selectedOption := none
      isAnswered := false
      timeRemaining := 30 }

/-- Source `QuestionArena.tsx`, the body of the countdown interval
(lines 183–211): at 0 nothing happens; when the timer is about to
expire (`prevTime === 1`) the question is force-locked — with the
timeout penalty (`streak = 0` and the toast) if it was still
unanswered, or with an immediate auto-advance request if the user had
already answered; otherwise the timer just decrements. -/
def tick (s : ArenaState) : ArenaState :=
  if s.timeRemaining = 0 then s
  else if s.timeRemaining = 1 then
    if !s.isAnswered then
      { s with
        streak := 0
        showTimeoutToast := true
        isAnswered := true
        timeRemaining := 0 }
    else
      { s with
        shouldAutoAdvance := true
        isAnswered := true
        timeRemaining := 0 }
  else
    { s with timeRemaining := s.timeRemaining - 1 }

/-- Source `QuestionArena.tsx`, the toast effect (lines 220–232): one second
after the timeout toast appears it is hidden and the auto-advance is
requested. -/
def hideTimeoutToast (s : ArenaState) : ArenaState :=
  if s.showTimeoutToast then
    { s with showTimeoutToast := false, shouldAutoAdvance := true }
  else s

/-- Source `QuestionArena.tsx`, the unified auto-advance effect
(lines 235–282): when `shouldAutoAdvance` is set, after the display
delay either completes the session (last question) or advances,
mirroring `handleNext`; note that only the advance branch clears
`shouldAutoAdvance`. -/
def autoAdvance (questions : List QuestionData) (highScore : Nat)
    (s : ArenaState) : ArenaState :=
  if !s.shouldAutoAdvance then s
  else if (s.currentQuestionIndex : ℤ) = (questions.length : ℤ) - 1 then
    { s with
      isNewHighScore := if s.score > highScore then true else s.isNewHighScore
      internalIsComplete := true
      completions :=
        s.completions ++ [(s.score, accuracyOf s.correctAnswers questions.length)] }
  else
    { s with
      currentQuestionIndex := s.currentQuestionIndex + 1
      selectedOption := none
      isAnswered := false
      shouldAutoAdvance := false
      timeRemaining := 30 }

/-- Source `QuestionArena.tsx`, the IDLE reset effect (lines 156–172): when
the externally driven `gameState` becomes `IDLE` every session field is
reset (the ghost history of past `onComplete` invocations is kept). -/
def idleReset (s : ArenaState) : ArenaState :=
  { initArenaState with completions := s.completions }

/-- Source `QuestionArena.tsx`, `handleTryAgain` in standalone mode
(lines 376–388): resets every session field except
`shouldAutoAdvance`, which the source omits from this reset list. -/
def tryAgainStandalone (s : ArenaState) : ArenaState :=
  { initArenaState with
    shouldAutoAdvance := s.shouldAutoAdvance
    completions := s.completions }

/-- Source `QuestionArena.tsx` line 431: the summary card replaces the
question interface when the externally driven `gameState` is
`FINISHED` or the standalone completion flag is set.  The `gameState`
prop is optional (`none` = standalone mode). -/
def shouldShowSummary (gameState : Option GameState)
    (internalIsComplete : Bool) : Bool :=
  gameState = some GameState.FINISHED || internalIsComplete

/-- Source `QuestionArena.tsx` lines 176–180: the countdown effect returns
early (holding no interval) exactly when the `gameState` prop is
`IDLE` or `FINISHED`; in standalone mode (`none`) the interval always
runs. -/
def timerEffectActive (gameState : Option GameState) : Bool :=
  match gameState with
  | some GameState.IDLE => false
  | some GameState.FINISHED => false
  | _ => true

/-- The events that drive `QuestionArena`: a click on an option
button, a click on the Next button, a tick of the countdown interval,
the hide-toast timeout and the auto-advance timeout, plus the two
reset paths. -/
inductive ArenaEvent where
  | select (optionId : String)
  | nextClick
  | timerTick
  | toastHide
  | advanceTimeout
  | reset
  | tryAgain
deriving DecidableEq, Repr

/-- Event delivery, including the render guards of the source: option
and Next clicks exist only while the question interface is rendered
(the summary card, shown once `shouldShowSummary` holds, has neither),
and timer ticks are delivered only while the countdown effect holds an
interval (`timerEffectActive`). -/
def arenaStep (questions : List QuestionData) (highScore : Nat)
    (gameState : Option GameState) :
    ArenaEvent → ArenaState → ArenaState
  | ArenaEvent.select o, s =>
    if shouldShowSummary gameState s.internalIsComplete then s
    else handleOptionClick questions o s
  | ArenaEvent.nextClick, s =>
    if shouldShowSummary gameState s.internalIsComplete then s
    else handleNext questions highScore s
  | ArenaEvent.timerTick, s =>
    if timerEffectActive gameState then tick s else s
  | ArenaEvent.toastHide, s => hideTimeoutToast s
  | ArenaEvent.advanceTimeout, s => autoAdvance questions highScore s
  | ArenaEvent.reset, s =>
    if gameState = some GameState.IDLE then idleReset s else s
  | ArenaEvent.tryAgain, s => tryAgainStandalone s

/-- The states a `QuestionArena` session can reach from its initial
state under any interleaving of events (the `gameState` prop may take
any value at each step). -/
inductive Reachable (questions : List QuestionData) (highScore : Nat) :
    ArenaState → Prop where
  | init : Reachable questions highScore initArenaState
  | step (gameState : Option GameState) (e : ArenaEvent) {s : ArenaState} :
      Reachable questions highScore s →
      Reachable questions highScore (arenaStep questions highScore gameState e s)

/-- The canonical play-through of a session: for each answer in the
list, one option click followed by one Next click. -/
def runQA (questions : List QuestionData) (highScore : Nat) :
    List String → ArenaState → ArenaState
  | [], s => s
  | a :: rest, s =>
    runQA questions highScore rest
      (handleNext questions highScore (handleOptionClick questions a s))

/-- Number of answers in the sequence that match the correct option of
the corresponding question. -/
def matchCount : List QuestionData → List String → Nat
  | q :: qs, a :: as => (if a = q.correctId then 1 else 0) + matchCount qs as
  | _, _ => 0

/-! ## `App.tsx` (outer lifecycle) -/

/-- The `useState` fields of `App` that the outer lifecycle touches. -/
structure AppState where
  gameState : GameState
  questions : List QuestionData
  userXP : Nat
  highScore : Nat
  currentStreak : Nat
  currentScore : Nat
  currentStreakInGame : Nat
  isAnswered : Bool
  isNewHighScore : Bool
deriving DecidableEq, Repr

/-- Source `App.tsx`, `handleStartQuiz` (lines 81–89): resets the in-game
counters and unconditionally transitions `gameState` to `PLAYING`.
There is no validation of `questions` and no `ConfigurationError`
anywhere in the source. -/
def handleStartQuiz (s : AppState) : AppState :=
  { s with
    currentScore := 0
    currentStreakInGame := 0
    isAnswered := false
    isNewHighScore := false
    gameState := GameState.PLAYING }

/-- Source `QuestionArena.tsx` line 427: the accuracy shown on the summary
card, guarded against an empty question list. -/
def displayAccuracy (questions : List QuestionData) (correctAnswers : Nat) : ℚ :=
  if questions.length > 0 then (correctAnswers : ℚ) / (questions.length : ℚ) * 100
  else 0

/-! ## `localStorage.ts` (persisted progress and day streak) -/

/-- Source `types.ts`: `UserProgress`, the persisted record.  `lastPlayedDate`
is an ISO `YYYY-MM-DD` string in the source, modelled as an integer
day number (equal day numbers ↔ equal date strings). -/
structure UserProgress where
  userXP : Nat
  highScore : Nat
  currentStreak : Nat
  lastPlayedDate : Int
deriving DecidableEq, Repr

/-- Source `App.tsx`, `handleQuit` (lines 148–171), restricted to its effect
on the persisted record: `saveUserProgress({ ...currentProgress,
userXP: userXP + currentScore })` — only `userXP` is rewritten, from
the App's `userXP` state plus the partial-session score; `highScore`,
`currentStreak` and `lastPlayedDate` are spread through unchanged. -/
def handleQuit (userXP : Nat) (currentProgress : UserProgress)
    (currentScore : Nat) : UserProgress :=
  { currentProgress with userXP := userXP + currentScore }

/-- Source `localStorage.ts`, `calculateStreak` (lines 74–95) with the
ambient clock (`new Date()`, stripped to a calendar day) made an
explicit `today` parameter.  The date strings are compared for
equality first; otherwise the difference of the two UTC-midnight
timestamps in milliseconds is floor-divided by the milliseconds per
day (`Math.floor` on integers is `Int.fdiv`). -/
def calculateStreak (lastPlayedDate : Int) (currentStreak : Nat)
    (today : Int) : Nat :=
  if lastPlayedDate = today then currentStreak
  else
    let diffTime : Int := today * 86400000 - lastPlayedDate * 86400000
    let diffDays : Int := Int.fdiv diffTime 86400000
    if diffDays = 1 then currentStreak + 1
    else 1

/-! ## Concrete fixtures (used by witnesses and counterexamples) -/

/-- Option id "A". -/
def optA : String := "A"

/-- Option id "B". -/
def optB : String := "B"

/-- Option id "C". -/
def optC : String := "C"

/-- A minimal well-formed question with the given id and correct option. -/
def mkQ (n : Nat) (c : String) : QuestionData :=
  { id := n, type := "Logika", difficulty := "Easy", question := "?",
    options := [⟨optA, ""⟩, ⟨optB, ""⟩, ⟨optC, ""⟩, ⟨"D", ""⟩, ⟨"E", ""⟩],
    correctId := c, explanation := "" }

/-- Fixture question whose correct option is A. -/
def q1 : QuestionData := mkQ 1 optA

/-- Fixture question whose correct option is B. -/
def q2 : QuestionData := mkQ 2 optB

/-- A finished standalone session: one question, answered correctly,
Next clicked. -/
def finishedStandalone : ArenaState :=
  handleNext [q1] 0 (handleOptionClick [q1] optA initArenaState)

/-- The arena state after 29 delivered timer ticks of a fresh
standalone session: one second left on the clock, still unanswered. -/
def preTimeout : ArenaState :=
  (fun s => arenaStep [q1] 0 none ArenaEvent.timerTick s)^[29] initArenaState

/-! ## Branch lemmas for the handlers -/

/-- Unfolding of `handleOptionClick` on an unanswered in-range question, written out
by branch. -/
theorem handleOptionClick_eq (questions : List QuestionData) (q : QuestionData)
    (a : String) (s : ArenaState) (ha : s.isAnswered = false)
    (hq : questions[s.currentQuestionIndex]? = some q) :
    handleOptionClick questions a s =
      if a = q.correctId then
        { s with selectedOption := some a, isAnswered := true,
                 score := s.score + 20, correctAnswers := s.correctAnswers + 1,
                 streak := s.streak + 1, showXPAnimation := true }
      else
        { s with selectedOption := some a, isAnswered := true,
                 streak := 0, triggerShake := true } := by
  unfold handleOptionClick
  rw [ha, hq]
  simp

/-- Unfolding of `handleNext` on the last question. -/
theorem handleNext_last (questions : List QuestionData) (highScore : Nat)
    (s : ArenaState) (ha : s.isAnswered = true)
    (hlast : (s.currentQuestionIndex : ℤ) = (questions.length : ℤ) - 1) :
    handleNext questions highScore s =
      { s with
        isNewHighScore := if s.score > highScore then true else s.isNewHighScore
        internalIsComplete := true
        completions :=
          s.completions ++ [(s.score, accuracyOf s.correctAnswers questions.length)] } := by
  unfold handleNext
  simp [ha, hlast]

/-- Unfolding of `handleNext` strictly before the last question. -/
theorem handleNext_mid (questions : List QuestionData) (highScore : Nat)
    (s : ArenaState) (ha : s.isAnswered = true)
    (hmid : (s.currentQuestionIndex : ℤ) ≠ (questions.length : ℤ) - 1) :
    handleNext questions highScore s =
      { s with currentQuestionIndex := s.currentQuestionIndex + 1,
               selectedOption := none, isAnswered := false, timeRemaining := 30 } := by
  unfold handleNext
  simp [ha, hmid]

/-! ## C2: second option click is a no-op -/

/-- C2: for every question list and every pair of option ids, selecting
`o2` right after selecting `o1` leaves the session state identical to
selecting `o1` alone — score, streak, correctCount, selectedOptionId
and isAnswered included — because the first click set `isAnswered`.
(The statement is full state equality, which subsumes the listed
fields, and holds for every starting state.) -/
theorem selectOption_second_click_noop (questions : List QuestionData)
    (o1 o2 : String) (s : ArenaState) :
    handleOptionClick questions o2 (handleOptionClick questions o1 s) =
      handleOptionClick questions o1 s := by
  by_cases ha : s.isAnswered
  · unfold handleOptionClick
    simp [ha]
  · cases hq : questions[s.currentQuestionIndex]? with
    | none =>
      unfold handleOptionClick
      simp [ha, hq]
    | some q =>
      rw [handleOptionClick_eq questions q o1 s (by simpa using ha) hq]
      by_cases hc : o1 = q.correctId
      · unfold handleOptionClick
        simp [hc]
      · unfold handleOptionClick
        simp [hc]

/-! ## C3: scoring effect of a single option click -/

/-- C3: on an unanswered current question, selecting the correct option
adds exactly 20 to the score, 1 to correctCount and 1 to the streak;
selecting a wrong option resets the streak to 0 and leaves score and
correctCount unchanged; in both cases the selection is recorded, the
question is locked, and the timer is untouched. -/
theorem selectOption_scoring (questions : List QuestionData) (q : QuestionData)
    (o : String) (s : ArenaState) (ha : s.isAnswered = false)
    (hq : questions[s.currentQuestionIndex]? = some q) :
    (o = q.correctId →
      (handleOptionClick questions o s).score = s.score + 20 ∧
      (handleOptionClick questions o s).correctAnswers = s.correctAnswers + 1 ∧
      (handleOptionClick questions o s).streak = s.streak + 1) ∧
    (o ≠ q.correctId →
      (handleOptionClick questions o s).streak = 0 ∧
      (handleOptionClick questions o s).score = s.score ∧
      (handleOptionClick questions o s).correctAnswers = s.correctAnswers) ∧
    (handleOptionClick questions o s).selectedOption = some o ∧
    (handleOptionClick questions o s).isAnswered = true ∧
    (handleOptionClick questions o s).timeRemaining = s.timeRemaining := by
  rw [handleOptionClick_eq questions q o s ha hq]
  by_cases hc : o = q.correctId <;> simp [hc]

/-- Witness for C3: both branches at a concrete question; option A is
correct for `q1`, option C is not. -/
theorem selectOption_scoring_check :
    (handleOptionClick [q1] optA initArenaState).score = initArenaState.score + 20 ∧
    (handleOptionClick [q1] optA initArenaState).streak = initArenaState.streak + 1 ∧
    (handleOptionClick [q1] optC initArenaState).streak = 0 ∧
    (handleOptionClick [q1] optC initArenaState).score = initArenaState.score := by
  refine ⟨?_, ?_, ?_, ?_⟩
  · exact ((selectOption_scoring [q1] q1 optA initArenaState rfl rfl).1 (by decide)).1
  · exact ((selectOption_scoring [q1] q1 optA initArenaState rfl rfl).1 (by decide)).2.2
  · exact ((selectOption_scoring [q1] q1 optC initArenaState rfl rfl).2.1 (by decide)).1
  · exact ((selectOption_scoring [q1] q1 optC initArenaState rfl rfl).2.1 (by decide)).2.1

/-! ## C6: timer expiry after the question was answered -/

/-- C6: when the countdown reaches 0 on a tick and the current question
was already answered, the tick is a no-op for scoring: score, streak,
correctCount, the selection, the lock, the question index and the
history of onComplete invocations are all unchanged; the tick only
zeroes the clock and raises the (single, idempotent) auto-advance
request that the in-flight advance path consumes. -/
theorem timeout_after_answer_noop (s : ArenaState) (ha : s.isAnswered = true)
    (ht : s.timeRemaining = 1) :
    (tick s).score = s.score ∧
    (tick s).streak = s.streak ∧
    (tick s).correctAnswers = s.correctAnswers ∧
    (tick s).selectedOption = s.selectedOption ∧
    (tick s).isAnswered = true ∧
    (tick s).currentQuestionIndex = s.currentQuestionIndex ∧
    (tick s).completions = s.completions ∧
    (tick s).internalIsComplete = s.internalIsComplete ∧
    (tick s).timeRemaining = 0 ∧
    (tick s).shouldAutoAdvance = true := by
  unfold tick
  simp [ha, ht]

/-- Witness for C6 at a concrete answered state with one second left. -/
theorem timeout_after_answer_noop_check :
    (tick { initArenaState with isAnswered := true, timeRemaining := 1 }).score =
        ({ initArenaState with isAnswered := true, timeRemaining := 1 } : ArenaState).score ∧
    (tick { initArenaState with isAnswered := true, timeRemaining := 1 }).streak =
        ({ initArenaState with isAnswered := true, timeRemaining := 1 } : ArenaState).streak ∧
    (tick { initArenaState with isAnswered := true, timeRemaining := 1 }).correctAnswers =
        ({ initArenaState with isAnswered := true, timeRemaining := 1 } : ArenaState).correctAnswers ∧
    (tick { initArenaState with isAnswered := true, timeRemaining := 1 }).selectedOption =
        ({ initArenaState with isAnswered := true, timeRemaining := 1 } : ArenaState).selectedOption ∧
    (tick { initArenaState with isAnswered := true, timeRemaining := 1 }).isAnswered = true ∧
    (tick { initArenaState with isAnswered := true, timeRemaining := 1 }).currentQuestionIndex =
        ({ initArenaState with isAnswered := true, timeRemaining := 1 } : ArenaState).currentQuestionIndex ∧
    (tick { initArenaState with isAnswered := true, timeRemaining := 1 }).completions =
        ({ initArenaState with isAnswered := true, timeRemaining := 1 } : ArenaState).completions ∧
    (tick { initArenaState with isAnswered := true, timeRemaining := 1 }).internalIsComplete =
        ({ initArenaState with isAnswered := true, timeRemaining := 1 } : ArenaState).internalIsComplete ∧
    (tick { initArenaState with isAnswered := true, timeRemaining := 1 }).timeRemaining = 0 ∧
    (tick { initArenaState with isAnswered := true, timeRemaining := 1 }).shouldAutoAdvance = true :=
  timeout_after_answer_noop { initArenaState with isAnswered := true, timeRemaining := 1 } rfl rfl

/-! ## C9: day-streak law -/

/-- C9: at calendar-day granularity, `calculateStreak` keeps the streak
on a same-day replay, increments it when the last play was exactly one
day ago, and resets it to 1 on any gap of two or more days and on any
negative (future-dated) delta. -/
theorem calculateStreak_spec (lastPlayedDate today : Int) (k : Nat) :
    (lastPlayedDate = today → calculateStreak lastPlayedDate k today = k) ∧
    (today - lastPlayedDate = 1 → calculateStreak lastPlayedDate k today = k + 1) ∧
    (2 ≤ today - lastPlayedDate → calculateStreak lastPlayedDate k today = 1) ∧
    (today - lastPlayedDate < 0 → calculateStreak lastPlayedDate k today = 1) := by
  have key : Int.fdiv (today * 86400000 - lastPlayedDate * 86400000) 86400000 =
      today - lastPlayedDate := by
    rw [← Int.sub_mul, Int.fdiv_eq_ediv _ (by norm_num),
      Int.mul_ediv_cancel _ (by norm_num)]
  unfold calculateStreak
  refine ⟨fun h => ?_, fun h => ?_, fun h => ?_, fun h => ?_⟩
  · simp [h]
  · have hne : ¬lastPlayedDate = today := by omega
    simp only [hne, if_false, key, h, if_true]
  · have hne : ¬lastPlayedDate = today := by omega
    have hone : ¬today - lastPlayedDate = 1 := by omega
    simp only [hne, if_false, key, hone]
  · have hne : ¬lastPlayedDate = today := by omega
    have hone : ¬today - lastPlayedDate = 1 := by omega
    simp only [hne, if_false, key, hone]

/-- Witness for C9: day 100 as today, streak 3; all four regimes. -/
theorem calculateStreak_spec_check :
    calculateStreak 100 3 100 = 3 ∧
    calculateStreak 99 3 100 = 4 ∧
    calculateStreak 97 3 100 = 1 ∧
    calculateStreak 101 3 100 = 1 := by
  refine ⟨?_, ?_, ?_, ?_⟩
  · exact (calculateStreak_spec 100 100 3).1 (by decide)
  · exact (calculateStreak_spec 99 100 3).2.1 (by decide)
  · exact (calculateStreak_spec 97 100 3).2.2.1 (by decide)
  · exact (calculateStreak_spec 101 100 3).2.2.2 (by decide)

/-! ## C10: quit credits XP only -/

/-- C10: quitting mid-session writes back the stored record with only
`userXP` changed — credited with the partial-session score — while
`highScore`, `currentStreak` (day streak) and `lastPlayedDate` are
spread through unchanged, even when the partial score beats the stored
high score.  `hsync` records that the App's `userXP` state mirrors the
stored value (it is loaded from storage on mount and on every save). -/
theorem quit_frame (userXP : Nat) (currentProgress : UserProgress)
    (currentScore : Nat) (hsync : userXP = currentProgress.userXP) :
    (handleQuit userXP currentProgress currentScore).userXP =
        currentProgress.userXP + currentScore ∧
    (handleQuit userXP currentProgress currentScore).highScore =
        currentProgress.highScore ∧
    (handleQuit userXP currentProgress currentScore).currentStreak =
        currentProgress.currentStreak ∧
    (handleQuit userXP currentProgress currentScore).lastPlayedDate =
        currentProgress.lastPlayedDate ∧
    (currentProgress.highScore < currentScore →
      (handleQuit userXP currentProgress currentScore).highScore =
        currentProgress.highScore) := by
  subst hsync
  simp [handleQuit]

/-- Witness for C10: stored record `{userXP := 40, highScore := 10,
currentStreak := 2, lastPlayedDate := 100}`, quitting with a partial
score of 60 (which exceeds the stored high score). -/
theorem quit_frame_check :
    (handleQuit 40 ⟨40, 10, 2, 100⟩ 60).userXP = 40 + 60 ∧
    (handleQuit 40 ⟨40, 10, 2, 100⟩ 60).highScore = 10 ∧
    (handleQuit 40 ⟨40, 10, 2, 100⟩ 60).currentStreak = 2 ∧
    (handleQuit 40 ⟨40, 10, 2, 100⟩ 60).lastPlayedDate = 100 := by
  have h := quit_frame 40 ⟨40, 10, 2, 100⟩ 60 rfl
  exact ⟨h.1, h.2.1, h.2.2.1, h.2.2.2.1⟩

/-! ## C7: start with an empty question list -/

/-- The App in its lobby state with an empty question list (e.g. the
remote source returned zero rows). -/
def emptyLobby : AppState :=
  { gameState := GameState.IDLE, questions := [], userXP := 0, highScore := 0,
    currentStreak := 0, currentScore := 0, currentStreakInGame := 0,
    isAnswered := false, isNewHighScore := false }

/-- Counterexample to C7: `handleStartQuiz` performs no validation — on
an empty question list the controller still enters the Playing phase,
and no `ConfigurationError` exists anywhere in the source. -/
theorem startQuiz_empty_enters_playing :
    emptyLobby.questions = [] ∧
    (handleStartQuiz emptyLobby).gameState = GameState.PLAYING := by
  constructor
  · rfl
  · rfl

/-- C7 (amended): `start()` does not reject an empty question list:
for every App state — the empty-list lobby included — `handleStartQuiz`
transitions to Playing with the question list unchanged and the in-game
counters reset; the only empty-list guard in the source is the arena's
accuracy display, which returns 0 instead of dividing by zero. -/
theorem startQuiz_no_validation (s : AppState) (correctAnswers : Nat) :
    (handleStartQuiz s).gameState = GameState.PLAYING ∧
    (handleStartQuiz s).questions = s.questions ∧
    (handleStartQuiz s).currentScore = 0 ∧
    (handleStartQuiz s).currentStreakInGame = 0 ∧
    displayAccuracy [] correctAnswers = 0 := by
  refine ⟨rfl, rfl, rfl, rfl, ?_⟩
  simp [displayAccuracy]

/-! ## C8: timer teardown on leaving Playing -/

/-- Counterexample to C8: in standalone mode (`gameState` prop absent)
the countdown effect never tears down — `timerEffectActive none` is
`true` even once the finished summary is shown (`shouldShowSummary`
holds), and a delivered tick still mutates the finished session's
state (the clock moves from 30 to 29). -/
theorem standalone_timer_mutates_finished :
    shouldShowSummary none finishedStandalone.internalIsComplete = true ∧
    timerEffectActive none = true ∧
    finishedStandalone.timeRemaining = 30 ∧
    (arenaStep [q1] 0 none ArenaEvent.timerTick finishedStandalone).timeRemaining = 29 := by
  refine ⟨by decide, rfl, by decide, by decide⟩

/-- C8 (amended): the countdown effect holds an interval exactly when
the `gameState` prop is neither IDLE nor FINISHED — so an externally
driven session tears the timer down on every path that leaves Playing
(quit, finish, disposal) — but in standalone mode (no `gameState`
prop) the interval stays active even after `internalIsComplete` is
set, and its ticks keep mutating the finished session. -/
theorem timer_teardown (questions : List QuestionData) (highScore : Nat)
    (s : ArenaState) :
    timerEffectActive (some GameState.IDLE) = false ∧
    timerEffectActive (some GameState.FINISHED) = false ∧
    timerEffectActive (some GameState.PLAYING) = true ∧
    timerEffectActive none = true ∧
    arenaStep questions highScore (some GameState.IDLE) ArenaEvent.timerTick s = s ∧
    arenaStep questions highScore (some GameState.FINISHED) ArenaEvent.timerTick s = s ∧
    arenaStep questions highScore none ArenaEvent.timerTick s = tick s := by
  refine ⟨rfl, rfl, rfl, rfl, ?_, ?_, ?_⟩ <;> simp [arenaStep, timerEffectActive]

/-! ## C4: advance after Finished -/

/-- C4: once the session is Finished (`internalIsComplete` set — in the
externally driven mode `gameState` is then FINISHED as well), the
summary card replaces the question interface, so a further advance()
event is the identity on the session: `onComplete` is not re-invoked
(the completion history is unchanged) and no field — score and
accuracy included — changes. -/
theorem advance_after_finished_noop (questions : List QuestionData)
    (highScore : Nat) (gameState : Option GameState) (s : ArenaState)
    (hdone : s.internalIsComplete = true) :
    arenaStep questions highScore gameState ArenaEvent.nextClick s = s ∧
    (arenaStep questions highScore gameState ArenaEvent.nextClick s).completions =
      s.completions := by
  have hsum : shouldShowSummary gameState s.internalIsComplete = true := by
    simp [shouldShowSummary, hdone]
  constructor <;> simp [arenaStep, hsum]

/-- Witness for C4: a further Next click on a concretely finished
standalone session changes nothing. -/
theorem advance_after_finished_noop_check :
    arenaStep [q1] 0 none ArenaEvent.nextClick finishedStandalone =
        finishedStandalone ∧
    (arenaStep [q1] 0 none ArenaEvent.nextClick finishedStandalone).completions =
      finishedStandalone.completions :=
  advance_after_finished_noop [q1] 0 none finishedStandalone (by decide)

/-! ## C5: timeout on an unanswered question -/

/-- Session invariant: while the current question is unanswered no
option is selected.  `selectedOption` is only ever set by
`handleOptionClick`, which also locks the question, and every path
that clears the lock also clears the selection. -/
theorem reachable_unanswered_unselected {questions : List QuestionData}
    {highScore : Nat} {s : ArenaState}
    (h : Reachable questions highScore s) :
    s.isAnswered = false → s.selectedOption = none := by
  induction h with
  | init => intro _; rfl
  | step gameState e h ih =>
    cases e with
    | select o =>
      simp only [arenaStep]
      split
      · exact ih
      · unfold handleOptionClick
        split
        · exact ih
        · split
          · exact ih
          · split <;> simp
    | nextClick =>
      simp only [arenaStep]
      split
      · exact ih
      · unfold handleNext
        split
        · exact ih
        · split
          · exact ih
          · simp
    | timerTick =>
      simp only [arenaStep]
      split
      · unfold tick
        split
        · exact ih
        · split
          · split <;> simp
          · exact ih
      · exact ih
    | toastHide =>
      simp only [arenaStep]
      unfold hideTimeoutToast
      split
      · exact ih
      · exact ih
    | advanceTimeout =>
      simp only [arenaStep]
      unfold autoAdvance
      split
      · exact ih
      · split
        · exact ih
        · simp
    | reset =>
      simp only [arenaStep]
      split
      · intro _; rfl
      · exact ih
    | tryAgain =>
      simp only [arenaStep]
      intro _; rfl

/-- C5: in every reachable session state, when the countdown reaches 0
on a tick while the question is still unanswered, the tick locks the
question with no option selected, resets the streak to 0 and leaves
score and correctCount unchanged — the same penalty as an explicit
wrong answer, with no score change. -/
theorem timeout_penalty (questions : List QuestionData) (highScore : Nat)
    (s : ArenaState) (hr : Reachable questions highScore s)
    (ht : s.timeRemaining = 1) (ha : s.isAnswered = false) :
    (tick s).isAnswered = true ∧
    (tick s).selectedOption = none ∧
    (tick s).streak = 0 ∧
    (tick s).score = s.score ∧
    (tick s).correctAnswers = s.correctAnswers ∧
    (tick s).timeRemaining = 0 := by
  have hsel : s.selectedOption = none := reachable_unanswered_unselected hr ha
  unfold tick
  simp [ht, ha, hsel]

/-- Any number of standalone timer ticks from the initial state stays
within the reachable set. -/
theorem reachable_tick_iterate (questions : List QuestionData)
    (highScore : Nat) (n : Nat) :
    Reachable questions highScore
      ((fun s => arenaStep questions highScore none ArenaEvent.timerTick s)^[n]
        initArenaState) := by
  induction n with
  | zero => exact Reachable.init
  | succ n ih =>
    rw [Function.iterate_succ_apply']
    exact Reachable.step none ArenaEvent.timerTick ih

/-- Witness for C5: after 29 delivered ticks of a fresh session the
clock shows 1 and the question is unanswered; the 30th tick applies
the timeout penalty. -/
theorem timeout_penalty_check :
    (tick preTimeout).isAnswered = true ∧
    (tick preTimeout).selectedOption = none ∧
    (tick preTimeout).streak = 0 ∧
    (tick preTimeout).score = preTimeout.score ∧
    (tick preTimeout).correctAnswers = preTimeout.correctAnswers ∧
    (tick preTimeout).timeRemaining = 0 :=
  timeout_penalty [q1] 0 preTimeout (reachable_tick_iterate [q1] 0 29)
    (by decide) (by decide)

/-! ## C1: completion fires exactly once, with score and accuracy -/

@[simp]
theorem matchCount_nil (questions : List QuestionData) : matchCount questions [] = 0 := by
  cases questions <;> rfl

@[simp]
theorem matchCount_cons (q : QuestionData) (questions : List QuestionData)
    (a : String) (answers : List String) :
    matchCount (q :: questions) (a :: answers) =
      (if a = q.correctId then 1 else 0) + matchCount questions answers := rfl

/-- Field bookkeeping of a single option click on an unanswered
in-range question. -/
theorem handleOptionClick_proj (questions : List QuestionData) (q : QuestionData)
    (a : String) (s : ArenaState) (ha : s.isAnswered = false)
    (hq : questions[s.currentQuestionIndex]? = some q) :
    (handleOptionClick questions a s).isAnswered = true ∧
    (handleOptionClick questions a s).currentQuestionIndex = s.currentQuestionIndex ∧
    (handleOptionClick questions a s).completions = s.completions ∧
    (handleOptionClick questions a s).score
      = s.score + (if a = q.correctId then 20 else 0) ∧
    (handleOptionClick questions a s).correctAnswers
      = s.correctAnswers + (if a = q.correctId then 1 else 0) := by
  rw [handleOptionClick_eq questions q a s ha hq]
  by_cases hc : a = q.correctId <;> simp [hc]

/-- One answer-then-advance round strictly before the last question:
the trace continues from a state with the next question loaded and
unlocked, the completion history untouched, and score/correctCount
bumped according to the answer. -/
theorem runQA_step (questions : List QuestionData) (highScore : Nat)
    (q : QuestionData) (a : String) (answers : List String) (s : ArenaState)
    (ha : s.isAnswered = false)
    (hq : questions[s.currentQuestionIndex]? = some q)
    (hmid : (s.currentQuestionIndex : ℤ) ≠ (questions.length : ℤ) - 1) :
    runQA questions highScore (a :: answers) s =
      runQA questions highScore answers
        (handleNext questions highScore (handleOptionClick questions a s)) ∧
    (handleNext questions highScore (handleOptionClick questions a s)).isAnswered
      = false ∧
    (handleNext questions highScore (handleOptionClick questions a s)).currentQuestionIndex
      = s.currentQuestionIndex + 1 ∧
    (handleNext questions highScore (handleOptionClick questions a s)).completions
      = s.completions ∧
    (handleNext questions highScore (handleOptionClick questions a s)).score
      = s.score + (if a = q.correctId then 20 else 0) ∧
    (handleNext questions highScore (handleOptionClick questions a s)).correctAnswers
      = s.correctAnswers + (if a = q.correctId then 1 else 0) := by
  obtain ⟨p1, p2, p3, p4, p5⟩ := handleOptionClick_proj questions q a s ha hq
  have hnext := handleNext_mid questions highScore (handleOptionClick questions a s)
    p1 (by rw [p2]; exact hmid)
  refine ⟨by simp only [runQA], ?_, ?_, ?_, ?_, ?_⟩ <;>
    simp [hnext, p2, p3, p4, p5]

/-- The canonical play-through, started on any unanswered state with
as many answers as questions remain: it appends exactly one entry to
the completion history — score grown by 20 per matching answer and
accuracy the matching fraction of the whole list — and ends in the
Finished state. -/
theorem runQA_completion (questions : List QuestionData) (highScore : Nat)
    (answers : List String) :
    ∀ (a : String) (s : ArenaState),
      s.isAnswered = false →
      s.currentQuestionIndex + (answers.length + 1) = questions.length →
      (runQA questions highScore (a :: answers) s).completions =
          s.completions ++
            [(s.score + 20 * matchCount (questions.drop s.currentQuestionIndex) (a :: answers),
              ((s.correctAnswers : ℚ) +
                  (matchCount (questions.drop s.currentQuestionIndex) (a :: answers) : ℚ)) /
                (questions.length : ℚ) * 100)] ∧
      (runQA questions highScore (a :: answers) s).internalIsComplete = true := by
  induction answers with
  | nil =>
    intro a s ha hlen
    simp only [List.length_nil, Nat.zero_add] at hlen
    have hi : s.currentQuestionIndex < questions.length := by omega
    have hq : questions[s.currentQuestionIndex]? = some questions[s.currentQuestionIndex] :=
      List.getElem?_eq_getElem hi
    have hdrop : questions.drop s.currentQuestionIndex =
        questions[s.currentQuestionIndex] :: questions.drop (s.currentQuestionIndex + 1) :=
      List.drop_eq_getElem_cons hi
    have hlast : (s.currentQuestionIndex : ℤ) = (questions.length : ℤ) - 1 := by omega
    obtain ⟨p1, p2, p3, p4, p5⟩ :=
      handleOptionClick_proj questions questions[s.currentQuestionIndex] a s ha hq
    have hnext := handleNext_last questions highScore
      (handleOptionClick questions a s) p1 (by rw [p2]; exact hlast)
    rw [hdrop]
    simp only [runQA]
    rw [hnext]
    refine ⟨?_, rfl⟩
    simp only [matchCount_cons, matchCount_nil, accuracyOf, p3, p4, p5]
    rw [List.append_right_inj]
    by_cases hc : a = questions[s.currentQuestionIndex].correctId
    · simp only [if_pos hc, List.cons.injEq, Prod.mk.injEq, and_true]
      refine ⟨trivial, ?_⟩
      push_cast
      ring
    · simp only [if_neg hc, List.cons.injEq, Prod.mk.injEq, and_true]
      refine ⟨trivial, ?_⟩
      push_cast
      ring
  | cons b rest ih =>
    intro a s ha hlen
    simp only [List.length_cons] at hlen
    have hi : s.currentQuestionIndex < questions.length := by omega
    have hq : questions[s.currentQuestionIndex]? = some questions[s.currentQuestionIndex] :=
      List.getElem?_eq_getElem hi
    have hdrop : questions.drop s.currentQuestionIndex =
        questions[s.currentQuestionIndex] :: questions.drop (s.currentQuestionIndex + 1) :=
      List.drop_eq_getElem_cons hi
    have hmid : (s.currentQuestionIndex : ℤ) ≠ (questions.length : ℤ) - 1 := by omega
    obtain ⟨hrun, ha2, hidx2, hcomp2, hscore2, hcc2⟩ :=
      runQA_step questions highScore questions[s.currentQuestionIndex] a (b :: rest) s
        ha hq hmid
    rw [hrun]
    obtain ⟨ih1, ih2⟩ :=
      ih b (handleNext questions highScore (handleOptionClick questions a s)) ha2
        (by rw [hidx2]; omega)
    refine ⟨?_, ih2⟩
    rw [ih1, hcomp2, hscore2, hcc2, hidx2, hdrop]
    rw [List.append_right_inj]
    by_cases hc : a = questions[s.currentQuestionIndex].correctId
    · simp only [matchCount_cons, if_pos hc, List.cons.injEq, Prod.mk.injEq, and_true]
      refine ⟨by omega, ?_⟩
      push_cast
      ring
    · simp only [matchCount_cons, if_neg hc, List.cons.injEq, Prod.mk.injEq, and_true]
      refine ⟨by omega, ?_⟩
      push_cast
      ring

/-- C1: for every non-empty question list and every full answer
sequence (one option click and one Next click per question), the
completion history of the resulting session holds exactly one entry —
`onComplete` fired exactly once — whose payload is
`score = 20 × (number of correct answers)` and
`accuracy = (number of correct answers) / N × 100`, and the session is
in the Finished state at that point. -/
theorem onComplete_exactly_once (questions : List QuestionData) (highScore : Nat)
    (answers : List String) (hlen : answers.length = questions.length)
    (hne : questions ≠ []) :
    (runQA questions highScore answers initArenaState).completions =
      [(20 * matchCount questions answers,
        (matchCount questions answers : ℚ) / (questions.length : ℚ) * 100)] ∧
    (runQA questions highScore answers initArenaState).internalIsComplete = true := by
  cases answers with
  | nil =>
    exfalso
    cases questions with
    | nil => exact hne rfl
    | cons q qs => simp at hlen
  | cons a rest =>
    have h := runQA_completion questions highScore rest a initArenaState rfl
      (by simp at hlen; simp [initArenaState]; omega)
    simpa [initArenaState] using h

/-- Witness for C1: the specification's example scenario — two
questions, a correct then a wrong answer — completes exactly once with
score 20 and accuracy 50%. -/
theorem onComplete_exactly_once_check :
    (runQA [q1, q2] 0 [optA, optC] initArenaState).completions =
      [(20 * matchCount [q1, q2] [optA, optC],
        (matchCount [q1, q2] [optA, optC] : ℚ) /
          (([q1, q2] : List QuestionData).length : ℚ) * 100)] ∧
    (runQA [q1, q2] 0 [optA, optC] initArenaState).internalIsComplete = true :=
  onComplete_exactly_once [q1, q2] 0 [optA, optC] (by decide) (by decide)

end Nalar
